import Mathlib

/-!
Shallow embedding of the realtime voice session pipeline and the
persistence layer of the application (src/App.tsx,
src/services/persistence.ts).

Conventions of the embedding:
* React state and refs of the `App` component are collected in one
  record `VoiceState`; each event handler of the source becomes a pure
  state-transition function.
* Audio-clock times and buffer durations are modelled as rationals.
* The `onmessage` callback of the live session is created once inside
  `startVoiceSession`; the render-time values of `currentInput` and
  `currentOutput` it captures are therefore explicit parameters
  (`closureInput`, `closureOutput`) distinct from the live state fields,
  exactly mirroring the JavaScript closure semantics of the source.
-/

namespace App

/-- Role of a transcript entry (src/types.ts). -/
inductive Role
  | user
  | model
deriving DecidableEq

/-- TranscriptionEntry (src/types.ts). -/
structure TranscriptionEntry where
  id : String
  role : Role
  text : String
  timestamp : Nat
deriving DecidableEq

/-- The `status` React state: 'idle' | 'listening' | 'speaking' (App.tsx line 68). -/
inductive Status
  | idle
  | listening
  | speaking
deriving DecidableEq

/-- An AudioBufferSourceNode handle as used by the playback scheduler:
`started` records whether `start()` has been called, `finished` whether
playback has ended or the node was stopped. -/
structure AudioSource where
  id : Nat
  started : Bool
  finished : Bool
deriving DecidableEq

/-- Raw Web Audio `stop()`: throws InvalidStateError only when the node
was never started; stopping a started node — even one that has already
finished — succeeds. -/
def AudioSource.stopRaw (s : AudioSource) : Except String AudioSource :=
  if s.started then Except.ok { s with finished := true }
  else Except.error "InvalidStateError"

/-- The guarded stop of App.tsx line 80: `try { s.stop() } catch(e) {}`. -/
def AudioSource.tryStop (s : AudioSource) : AudioSource :=
  match s.stopRaw with
  | Except.ok s2 => s2
  | Except.error _ => s

/-- The component state relevant to the voice pipeline: React state
(`isConnected`, `isConnecting`, `status`, `transcriptions`,
`currentInput`, `currentOutput`) and refs (`sessionRef` as
`sessionOpen`, the captured stream's liveness as `micOpen`, the
`sources` set and `nextStartTimeRef`). -/
structure VoiceState where
  isConnected : Bool
  isConnecting : Bool
  status : Status
  transcriptions : List TranscriptionEntry
  currentInput : String
  currentOutput : String
  sessionOpen : Bool
  micOpen : Bool
  sources : List AudioSource
  nextStartTime : ℚ
deriving DecidableEq

/-- Initial component state (App.tsx lines 65-76). -/
def initialVoiceState : VoiceState :=
  { isConnected := false
    isConnecting := false
    status := Status.idle
    transcriptions := []
    currentInput := ""
    currentOutput := ""
    sessionOpen := false
    micOpen := false
    sources := []
    nextStartTime := 0 }

/-- stopAllAudio (App.tsx lines 78-84): try-stop every source in the
set, clear the set, reset nextStartTimeRef to 0. -/
def stopAllAudio (s : VoiceState) : VoiceState :=
  let _stopped := s.sources.map AudioSource.tryStop
  { s with sources := [], nextStartTime := 0 }

/-- stopVoiceSession (App.tsx lines 86-92): close and drop the session
handle if present, stop all audio, clear both connection flags, set
status idle. Note: the captured media stream's tracks are never
stopped anywhere in the source, so `micOpen` is left untouched. -/
def stopVoiceSession (s : VoiceState) : VoiceState :=
  let s1 := if s.sessionOpen then { s with sessionOpen := false } else s
  let s2 := stopAllAudio s1
  { s2 with isConnected := false, isConnecting := false, status := Status.idle }

/-- The synchronous prefix of startVoiceSession (App.tsx lines 94-96):
guard against an already connecting/connected session, else flag
connecting. The asynchronous continuation is modelled by `acquireMic`,
`onopen` and `sessionReady`. -/
def startVoiceSession (s : VoiceState) : VoiceState :=
  if s.isConnecting || s.isConnected then s
  else { s with isConnecting := true }

/-- getUserMedia resolving (App.tsx line 104): the OS microphone is
now open; it stays open until some code stops the stream's tracks. -/
def acquireMic (s : VoiceState) : VoiceState :=
  { s with micOpen := true }

/-- The onopen callback (App.tsx lines 108-117): connected, not
connecting, listening; capture is wired to the encoder. -/
def onopen (s : VoiceState) : VoiceState :=
  { s with isConnected := true, isConnecting := false, status := Status.listening }

/-- `sessionRef.current = await sessionPromise` (App.tsx line 152). -/
def sessionReady (s : VoiceState) : VoiceState :=
  { s with sessionOpen := true }

/-- One scheduling step of the playback scheduler (App.tsx lines 129,
136-137): the start time is `max nextStartTime clock` and the cursor
advances by the buffer's duration. Returns (start, new cursor). -/
def scheduleStep (next clock dur : ℚ) : ℚ × ℚ :=
  let start := max next clock
  (start, start + dur)

/-- Per-message environment: Date.now(), outputCtx.currentTime, and
the identity of the freshly created buffer source node. -/
structure MessageEnv where
  now : Nat
  clock : ℚ
  freshId : Nat
deriving DecidableEq

/-- The fields of a LiveServerMessage the handler inspects: optional
output/input transcription fragments, the turnComplete flag, inline
audio (abstracted to the decoded buffer's duration), and the
interrupted flag. -/
structure ServerMessage where
  outputTranscription : Option String
  inputTranscription : Option String
  turnComplete : Bool
  audio : Option ℚ
  interrupted : Bool
deriving DecidableEq

/-- A message carrying only an input-transcription fragment. -/
def msgIn (t : String) : ServerMessage :=
  { outputTranscription := none, inputTranscription := some t,
    turnComplete := false, audio := none, interrupted := false }

/-- A message carrying only an output-transcription fragment. -/
def msgOut (t : String) : ServerMessage :=
  { outputTranscription := some t, inputTranscription := none,
    turnComplete := false, audio := none, interrupted := false }

/-- A message carrying only the turn-complete marker. -/
def msgTurnComplete : ServerMessage :=
  { outputTranscription := none, inputTranscription := none,
    turnComplete := true, audio := none, interrupted := false }

/-- A message carrying only an inline audio chunk of the given duration. -/
def msgAudio (dur : ℚ) : ServerMessage :=
  { outputTranscription := none, inputTranscription := none,
    turnComplete := false, audio := some dur, interrupted := false }

/-- A message carrying only the interruption marker. -/
def msgInterrupted : ServerMessage :=
  { outputTranscription := none, inputTranscription := none,
    turnComplete := false, audio := none, interrupted := true }

/-- The onmessage callback (App.tsx lines 118-141). `closureInput` and
`closureOutput` are the values of `currentInput` / `currentOutput`
captured when the callback was created inside startVoiceSession; the
turn-complete branch (line 122) appends THESE captured values, while
the fragment branches (lines 119-120) update the live state through
functional setState. -/
def onmessage (closureInput closureOutput : String) (env : MessageEnv)
    (msg : ServerMessage) (s : VoiceState) : VoiceState :=
  let s1 :=
    match msg.outputTranscription with
    | some t => { s with currentOutput := s.currentOutput ++ t, status := Status.speaking }
    | none =>
      match msg.inputTranscription with
      | some t => { s with currentInput := s.currentInput ++ t, status := Status.listening }
      | none => s
  let s2 :=
    if msg.turnComplete then
      { s1 with
          transcriptions := s1.transcriptions ++
            [ { id := toString env.now ++ "-in", role := Role.user,
                text := closureInput, timestamp := env.now },
              { id := toString env.now ++ "-out", role := Role.model,
                text := closureOutput, timestamp := env.now } ],
          currentInput := "", currentOutput := "" }
    else s1
  let s3 :=
    match msg.audio with
    | some dur =>
      let p := scheduleStep s2.nextStartTime env.clock dur
      { s2 with nextStartTime := p.2,
                sources := s2.sources ++ [⟨env.freshId, true, false⟩] }
    | none => s2
  if msg.interrupted then stopAllAudio s3 else s3

/-- The `ended` listener of a scheduled source (App.tsx line 135):
remove the handle from the set; when the set becomes empty, status
goes idle. -/
def onSourceEnded (srcId : Nat) (s : VoiceState) : VoiceState :=
  let remaining := s.sources.filter (fun h => h.id ≠ srcId)
  { s with sources := remaining,
           status := if remaining.length = 0 then Status.idle else s.status }

/-- Run the playback scheduler over a sequence of chunks, each given as
(output-clock time at arrival, duration); returns the (start, cursor
after scheduling) pair for each chunk in order. -/
def scheduleRun : ℚ → List (ℚ × ℚ) → List (ℚ × ℚ)
  | _, [] => []
  | next, c :: cs =>
    let p := scheduleStep next c.1 c.2
    p :: scheduleRun p.2 cs

end App

namespace Persistence

/-- AppData (src/services/persistence.ts): the record collections; the
items themselves are abstracted to strings, only the list structure
matters for the claims. -/
structure AppData where
  routine : List String
  students : List String
  faculty : List String
  notices : List String
  attendance : List String
  polls : List String
  courses : List String
deriving DecidableEq

/-- The localStorage cache under the key uu_eee_master_state. The
cached JSON string is modelled by the AppData value it serializes
(JSON.stringify with a fixed key order is injective on these records). -/
structure PersistentStore where
  localCache : Option AppData
deriving DecidableEq

/-- Outcome of the remote PUT in `save`: response.ok true, response.ok
false, or the fetch threw. -/
inductive RemoteOutcome
  | ok
  | failed
  | threw
deriving DecidableEq

/-- persistence.save (persistence.ts lines 55-74): write the document
to localStorage first, unconditionally; then attempt the remote PUT and
return response.ok, or false when the fetch threw. -/
def save (remote : RemoteOutcome) (doc : AppData) (st : PersistentStore) :
    PersistentStore × Bool :=
  let st1 := { st with localCache := some doc }
  match remote with
  | RemoteOutcome.ok => (st1, true)
  | RemoteOutcome.failed => (st1, false)
  | RemoteOutcome.threw => (st1, false)

/-- The guard of the debounced save effect (App.tsx line 48): the timer
is scheduled (and persistence.save eventually called) iff the data
differs from the last saved snapshot AND not all of routine, students,
notices are empty. `lastSaved` is `none` for the initial "" snapshot. -/
def shouldSave (lastSaved : Option AppData) (d : AppData) : Bool :=
  !(decide (some d = lastSaved)) &&
  !(d.routine.isEmpty && d.students.isEmpty && d.notices.isEmpty)

end Persistence

namespace Encoder

/-- Truncation of a rational toward zero, the JavaScript ToInteger
conversion applied when a number is stored into an Int16Array. -/
def ratTrunc (x : ℚ) : Int :=
  if 0 ≤ x then ⌊x⌋ else ⌈x⌉

/-- Modelled from the spec: the Sample Encoder (`createPCMBlob` in
src/services/audioUtils.ts, a file not present under src/). Spec
section 4.1: "convert each sample to a 16-bit signed integer using
linear scaling (multiply by 32767, clamp to the signed 16-bit range to
avoid overflow on values >= 1.0)". -/
def encodeSample (x : ℚ) : Int :=
  max (-32768) (min 32767 (ratTrunc (x * 32767)))

/-- Modelled from the spec: encode a whole capture frame sample-wise. -/
def encodeFrame (f : List ℚ) : List Int :=
  f.map encodeSample

/-- Little-endian packing of one 16-bit value into two bytes. -/
def pack16LE (i : Int) : List Nat :=
  [(i.emod 65536).toNat % 256, (i.emod 65536).toNat / 256]

/-- Modelled from the spec: the byte payload of an encoded frame,
little-endian, before base64 wrapping. -/
def encodeFrameBytes (f : List ℚ) : List Nat :=
  ((encodeFrame f).map pack16LE).flatten

end Encoder

namespace App

/-- A state reached by a successful start: start clicked, microphone
acquired, session opened, session handle stored. -/
def afterOpenState : VoiceState :=
  sessionReady (onopen (acquireMic (startVoiceSession initialVoiceState)))

/-- A fixed per-message environment for the concrete runs. -/
def demoEnv : MessageEnv :=
  { now := 1000, clock := 0, freshId := 0 }

/-- An open session mid-response: two buffers in flight (one already
finished) and the playback cursor ahead of the clock. -/
def busyState : VoiceState :=
  { afterOpenState with
      status := Status.speaking
      sources := [⟨0, true, false⟩, ⟨1, true, true⟩]
      nextStartTime := 3 }

/-- State after the handler processed an input-transcription fragment
"hello" from a fresh open session (closure captured empty buffers). -/
def c1AfterInput : VoiceState :=
  onmessage "" "" demoEnv (msgIn "hello") afterOpenState

/-- ... then an output-transcription fragment "hi there". -/
def c1AfterOutput : VoiceState :=
  onmessage "" "" demoEnv (msgOut "hi there") c1AfterInput

/-- ... then the turn-complete marker. -/
def c1AfterTurn : VoiceState :=
  onmessage "" "" demoEnv msgTurnComplete c1AfterOutput

end App

namespace Persistence

/-- A document whose only content lives in the faculty collection. -/
def facultyOnlyData : AppData :=
  { routine := [], students := [], faculty := ["Dr. A"], notices := [],
    attendance := [], polls := [], courses := [] }

end Persistence

/-- C1: handling the turn-complete event does append exactly two
entries (user then model) and clears both buffer strings, but the
appended texts are the values of currentInput/currentOutput captured
when the onmessage closure was created (empty at session start), not
the fragments accumulated since: after accumulating "hello" and
"hi there", the flushed entries carry "" and "". -/
theorem turn_complete_appends_stale_closure_text :
    App.c1AfterOutput.currentInput = "hello" ∧
    App.c1AfterOutput.currentOutput = "hi there" ∧
    App.c1AfterTurn.transcriptions.map App.TranscriptionEntry.text = ["", ""] ∧
    App.c1AfterTurn.transcriptions.map App.TranscriptionEntry.role
      = [App.Role.user, App.Role.model] ∧
    App.c1AfterTurn.transcriptions.length = 2 ∧
    App.c1AfterTurn.currentInput = "" ∧
    App.c1AfterTurn.currentOutput = "" ∧
    ("" : String) ≠ "hello" := by
  decide

/-- C2: any message carrying the interruption marker leaves the active
source set empty and the playback cursor at 0, whatever was in flight;
and stopping any started handle (already finished or not) raises no
error. -/
theorem interruption_clears_playback (cIn cOut : String) (env : App.MessageEnv)
    (msg : App.ServerMessage) (s : App.VoiceState) (h : msg.interrupted = true) :
    (App.onmessage cIn cOut env msg s).sources = [] ∧
    (App.onmessage cIn cOut env msg s).nextStartTime = 0 ∧
    (∀ a : App.AudioSource, a.started = true →
      a.stopRaw = Except.ok { a with finished := true }) := by
  refine ⟨?_, ?_, ?_⟩
  · simp [App.onmessage, h, App.stopAllAudio]
  · simp [App.onmessage, h, App.stopAllAudio]
  · intro a ha
    simp [App.AudioSource.stopRaw, ha]

/-- Witness for C2 at a concrete busy state with two buffers in flight. -/
theorem interruption_clears_playback_witness :
    (App.onmessage "" "" App.demoEnv App.msgInterrupted App.busyState).sources = [] ∧
    (App.onmessage "" "" App.demoEnv App.msgInterrupted App.busyState).nextStartTime = 0 ∧
    App.AudioSource.stopRaw ⟨1, true, true⟩ = Except.ok ⟨1, true, true⟩ :=
  ⟨(interruption_clears_playback "" "" App.demoEnv App.msgInterrupted App.busyState rfl).1,
   (interruption_clears_playback "" "" App.demoEnv App.msgInterrupted App.busyState rfl).2.1,
   (interruption_clears_playback "" "" App.demoEnv App.msgInterrupted App.busyState rfl).2.2
     ⟨1, true, true⟩ rfl⟩

/-- C3: an audio chunk advances the cursor to max(cursor, clock) plus
the chunk's duration; with nonnegative durations the cursor is
monotonically non-decreasing across any chunk sequence; and the
two-chunk scenario (durations 1 and 1/2, clock at 0 and 1/100)
schedules starts at 0 and 1. -/
theorem schedule_gapless_monotone :
    (∀ (cIn cOut : String) (env : App.MessageEnv) (dur : ℚ) (s : App.VoiceState),
        (App.onmessage cIn cOut env (App.msgAudio dur) s).nextStartTime
          = max s.nextStartTime env.clock + dur) ∧
    (∀ (next : ℚ) (cs : List (ℚ × ℚ)), (∀ c ∈ cs, 0 ≤ c.2) →
        List.Chain' (· ≤ ·) (next :: (App.scheduleRun next cs).map Prod.snd)) ∧
    (App.scheduleRun 0 [((0 : ℚ), 1), (1/100, 1/2)]).map Prod.fst = [0, 1] := by
  refine ⟨?_, ?_, ?_⟩
  · intro cIn cOut env dur s
    simp [App.onmessage, App.msgAudio, App.scheduleStep]
  · intro next cs
    induction cs generalizing next with
    | nil =>
      intro _
      simp [App.scheduleRun]
    | cons c cs ih =>
      intro h
      have hd : 0 ≤ c.2 := h c (List.mem_cons_self c cs)
      have htail : ∀ x ∈ cs, 0 ≤ x.2 := fun x hx => h x (List.mem_cons_of_mem c hx)
      have step : next ≤ (App.scheduleStep next c.1 c.2).2 := by
        simp only [App.scheduleStep]
        calc next ≤ max next c.1 := le_max_left _ _
          _ ≤ max next c.1 + c.2 := le_add_of_nonneg_right hd
      simp only [App.scheduleRun, List.map_cons]
      rw [List.chain'_cons]
      exact ⟨step, ih (App.scheduleStep next c.1 c.2).2 htail⟩
  · have hm : max (1 : ℚ) (1/100) = 1 := max_eq_left (by norm_num)
    simp [App.scheduleRun, App.scheduleStep, hm]
    norm_num

/-- Witness for C3's monotonicity part at a concrete two-chunk run. -/
theorem schedule_gapless_monotone_witness :
    List.Chain' (· ≤ ·)
      ((0 : ℚ) :: (App.scheduleRun 0 [((0 : ℚ), 1), (5, 1)]).map Prod.snd) :=
  schedule_gapless_monotone.2.1 0 [((0 : ℚ), 1), (5, 1)] (by decide)

/-- C4 counterexample: at a speaking open session, a pure interruption
message leaves the status at speaking — it is not forced to listening
as the claim states. -/
theorem interruption_does_not_force_listening :
    (App.onmessage "" "" App.demoEnv App.msgInterrupted App.busyState).status
      = App.Status.speaking ∧
    (App.onmessage "" "" App.demoEnv App.msgInterrupted App.busyState).status
      ≠ App.Status.listening := by
  decide

/-- C4 (amended): for every open session, an inbound interruption event
routes to the interrupt path (the source set is cleared and the cursor
reset to 0) and leaves the status unchanged. -/
theorem interruption_routes_and_preserves_status
    (cIn cOut : String) (env : App.MessageEnv) (s : App.VoiceState)
    (_h : s.isConnected = true) :
    (App.onmessage cIn cOut env App.msgInterrupted s).status = s.status ∧
    (App.onmessage cIn cOut env App.msgInterrupted s).sources = [] ∧
    (App.onmessage cIn cOut env App.msgInterrupted s).nextStartTime = 0 := by
  refine ⟨?_, ?_, ?_⟩ <;>
    simp [App.onmessage, App.msgInterrupted, App.stopAllAudio]

/-- Witness for C4's amended statement at the concrete busy state. -/
theorem interruption_routes_and_preserves_status_witness :
    (App.onmessage "" "" App.demoEnv App.msgInterrupted App.busyState).status
      = App.busyState.status ∧
    (App.onmessage "" "" App.demoEnv App.msgInterrupted App.busyState).sources = [] ∧
    (App.onmessage "" "" App.demoEnv App.msgInterrupted App.busyState).nextStartTime = 0 :=
  interruption_routes_and_preserves_status "" "" App.demoEnv App.busyState rfl

/-- C5: after a successful start and open (microphone acquired),
stopVoiceSession closes and drops the session handle, silences all
playback and returns to idle — but the captured stream's tracks are
never stopped, so the microphone stays open, contradicting the claim
that stop releases it. -/
theorem stop_leaves_microphone_open :
    (App.stopVoiceSession App.afterOpenState).micOpen = true ∧
    (App.stopVoiceSession App.afterOpenState).sessionOpen = false ∧
    (App.stopVoiceSession App.afterOpenState).sources = [] ∧
    (App.stopVoiceSession App.afterOpenState).nextStartTime = 0 ∧
    (App.stopVoiceSession App.afterOpenState).isConnected = false ∧
    (App.stopVoiceSession App.afterOpenState).isConnecting = false ∧
    (App.stopVoiceSession App.afterOpenState).status = App.Status.idle := by
  decide

/-- C6: start while already connecting or connected returns the state
unchanged — no handle is created, no observable state changes. -/
theorem start_noop_when_active (s : App.VoiceState)
    (h : s.isConnecting = true ∨ s.isConnected = true) :
    App.startVoiceSession s = s := by
  unfold App.startVoiceSession
  rcases h with h | h <;> simp [h]

/-- Witness for C6 at the concrete connected state. -/
theorem start_noop_when_active_witness :
    App.startVoiceSession App.afterOpenState = App.afterOpenState :=
  start_noop_when_active App.afterOpenState (Or.inr rfl)

/-- C7: stopVoiceSession is idempotent from every state, and calling it
on the initial (never-started) state changes nothing. -/
theorem stop_idempotent_and_initial_noop :
    (∀ s : App.VoiceState,
        App.stopVoiceSession (App.stopVoiceSession s) = App.stopVoiceSession s) ∧
    App.stopVoiceSession App.initialVoiceState = App.initialVoiceState := by
  constructor
  · intro s
    cases s with
    | mk c1 c2 c3 c4 c5 c6 so mo src nst =>
      cases so <;> rfl
  · rfl

/-- Helper: the sample 0 encodes to 0. -/
theorem encodeSample_zero : Encoder.encodeSample 0 = 0 := by
  simp only [Encoder.encodeSample, Encoder.ratTrunc]
  norm_num

/-- Helper: the sample 1/2 encodes to 16383 (truncation of 16383.5). -/
theorem encodeSample_half : Encoder.encodeSample (1/2) = 16383 := by
  simp only [Encoder.encodeSample, Encoder.ratTrunc]
  norm_num

/-- Helper: the sample -1 encodes to -32767 under multiply-by-32767. -/
theorem encodeSample_neg_one : Encoder.encodeSample (-1) = -32767 := by
  have h1 : ((-1 : ℚ) * 32767) = ((-32767 : ℤ) : ℚ) := by norm_num
  have h2 : ¬ (0 : ℚ) ≤ ((-32767 : ℤ) : ℚ) := by norm_num
  simp only [Encoder.encodeSample, Encoder.ratTrunc, h1, if_neg h2, Int.ceil_intCast]
  norm_num

/-- Helper: the sample 1 encodes to 32767 (the clamp is inactive at
exactly 1.0 under multiply-by-32767). -/
theorem encodeSample_one : Encoder.encodeSample 1 = 32767 := by
  simp only [Encoder.encodeSample, Encoder.ratTrunc]
  norm_num

/-- Helper: evaluation of the whole scenario frame. -/
theorem encodeFrame_eval :
    Encoder.encodeFrame [0, 1/2, -1, 1] = [0, 16383, -32767, 32767] := by
  show [Encoder.encodeSample 0, Encoder.encodeSample (1/2),
        Encoder.encodeSample (-1), Encoder.encodeSample 1] = _
  rw [encodeSample_zero, encodeSample_half, encodeSample_neg_one, encodeSample_one]

/-- C8 counterexample: with the spec's multiply-by-32767-and-clamp
conversion, the sample -1 encodes to -32767, so the scenario's claimed
value list [0, 16383, -32768, 32767] is not produced. -/
theorem encode_negative_one_gives_minus_32767 :
    Encoder.encodeFrame [0, 1/2, -1, 1] ≠ [0, 16383, -32768, 32767] ∧
    Encoder.encodeSample (-1) = -32767 := by
  refine ⟨?_, encodeSample_neg_one⟩
  rw [encodeFrame_eval]
  decide

/-- C8 (amended): the frame [0, 1/2, -1, 1] encodes to the 16-bit
values [0, 16383, -32767, 32767], packed little-endian as the bytes
[0,0, 255,63, 1,128, 255,127]. -/
theorem encode_frame_amended :
    Encoder.encodeFrame [0, 1/2, -1, 1] = [0, 16383, -32767, 32767] ∧
    Encoder.encodeFrameBytes [0, 1/2, -1, 1]
      = [0, 0, 255, 63, 1, 128, 255, 127] := by
  refine ⟨encodeFrame_eval, ?_⟩
  unfold Encoder.encodeFrameBytes
  rw [encodeFrame_eval]
  decide

/-- C9: save writes the document to the local cache unconditionally,
before and regardless of the remote outcome, and the returned boolean
is true exactly when the remote responded ok. -/
theorem save_caches_locally_before_remote (remote : Persistence.RemoteOutcome)
    (doc : Persistence.AppData) (st : Persistence.PersistentStore) :
    (Persistence.save remote doc st).1.localCache = some doc ∧
    ((Persistence.save remote doc st).2 = true ↔ remote = Persistence.RemoteOutcome.ok) := by
  cases remote <;> simp [Persistence.save]

/-- C10: whenever routine, students and notices are all empty, the
debounced save effect's guard suppresses the persistence.save call,
whatever the other collections hold and whatever was last saved. -/
theorem empty_core_collections_skip_save (last : Option Persistence.AppData)
    (d : Persistence.AppData) (hr : d.routine = []) (hs : d.students = [])
    (hn : d.notices = []) :
    Persistence.shouldSave last d = false := by
  simp [Persistence.shouldSave, hr, hs, hn]

/-- Witness for C10: a document whose only content is a faculty entry
is never saved. -/
theorem empty_core_collections_skip_save_witness :
    Persistence.shouldSave none Persistence.facultyOnlyData = false :=
  empty_core_collections_skip_save none Persistence.facultyOnlyData rfl rfl rfl
